import Mathlib

/-!
Shallow embedding of the pose-comparison / view-synchronization core of the
Cory dance-practice web application.

The embedded modules and their sources:
* `poseComparison` utilities — src/unnamed/part_019 (keypoint similarity,
  joint angles, joint-angle comparison);
* the skeleton-coloring angle primitive — src/unnamed/part_017
  (`calculateLineAngle`, `angleDifference`);
* the comparison/statistics hook `usePoseComparison` — src/unnamed/part_014;
* the timeline synchronizer `useReferencePoseLandmarks` —
  src/cory/src/components/LearningMode/hooks/useReferencePoseLandmarks.js;
* the picture-in-picture resize handler — src/unnamed/part_020 (PipView).

JS numbers are modelled as real numbers (`ℝ`) where the source computes with
square roots and arc tangents, and as rationals (`ℚ`) in the purely rational
modules (timeline synchronizer, PIP geometry), keeping those executable.
`Math.round` is `⌊x + 1/2⌋`, exactly the JS semantics on finite inputs.
NaN has no representative in `ℝ`; theorems therefore carry the 33-point
frame-layout hypotheses under which the source never produces NaN from
out-of-range array reads.
-/

namespace Cory

/-- A body keypoint as consumed by poseComparison.js: planar position and a
confidence score (the `.score` field of the duck-typed JS object). -/
structure Keypoint where
  x : ℝ
  y : ℝ
  score : ℝ

/-- JS `Math.round`: round half up, `⌊x + 1/2⌋`. -/
noncomputable def jsRound (x : ℝ) : ℝ :=
  ((⌊x + 1/2⌋ : ℤ) : ℝ)

/-- `Math.round(x * 10) / 10`, the source's rounding to one decimal place. -/
noncomputable def round1 (x : ℝ) : ℝ :=
  jsRound (x * 10) / 10

/-- `calculateDistance` from poseComparison.js: Euclidean distance between
two keypoints' planar positions. -/
noncomputable def calculateDistance (point1 point2 : Keypoint) : ℝ :=
  Real.sqrt ((point1.x - point2.x) * (point1.x - point2.x) +
    (point1.y - point2.y) * (point1.y - point2.y))

/-- `normalizeKeypoints` from poseComparison.js: scale every keypoint by the
hip distance (keypoints 23 and 24).  Returns `none` ("cannot normalize") when
either hip is missing, has confidence `< 0.3`, or the hip distance is `0`. -/
noncomputable def normalizeKeypoints (keypoints : List Keypoint) :
    Option (List Keypoint) :=
  match keypoints[23]?, keypoints[24]? with
  | some leftHip, some rightHip =>
    if leftHip.score < 3/10 ∨ rightHip.score < 3/10 then none
    else
      let hipDistance := calculateDistance leftHip rightHip
      if hipDistance = 0 then none
      else some (keypoints.map fun kp =>
        { kp with x := kp.x / hipDistance, y := kp.y / hipDistance })
  | _, _ => none

/-- The default per-keypoint importance weights of `calculatePoseSimilarity`
(33 entries, weight 2 on shoulders, elbows, wrists, hips, knees, ankles). -/
noncomputable def defaultWeights : List ℝ :=
  [1, 1, 1, 1, 1, 1, 1, 1, 1, 1, 1,
   2, 2, 2, 2, 2, 2,
   1, 1, 1, 1, 1, 1,
   2, 2, 2, 2, 2, 2,
   1, 1, 1, 1]

/-- The comparison loop of `calculatePoseSimilarity`: walks the two keypoint
lists in parallel (up to the shorter length, as the JS `for` loop bounded by
`Math.min` does), accumulating `(totalError, totalWeight, validKeypoints)`
over the pairs in which both confidences are strictly above `0.3`.
The weight read `weights[i]` is modelled as `weights.getD i 1`; frames follow
the 33-point layout, so with the 33-entry default weights the index is always
in range and the default is never consulted (in JS an out-of-range read would
poison the sum with NaN, which `ℝ` cannot represent). -/
noncomputable def simLoop (weights : List ℝ) :
    List Keypoint → List Keypoint → ℕ → ℝ × ℝ × ℕ
  | liveKp :: liveRest, refKp :: refRest, i =>
    let rest := simLoop weights liveRest refRest (i + 1)
    if liveKp.score > 3/10 ∧ refKp.score > 3/10 then
      let distance := calculateDistance liveKp refKp
      let w := weights.getD i 1
      (rest.1 + distance * w, rest.2.1 + w, rest.2.2 + 1)
    else rest
  | _, _, _ => (0, 0, 0)

/-- The `details.error` strings of `calculatePoseSimilarity`. -/
inductive SimError where
  | missingPoseData
  | cannotNormalize
  | noValidKeypoints
deriving DecidableEq

/-- Result of `calculatePoseSimilarity`: the 0–100 score and the error code
carried in `details.error` (if any).  The purely diagnostic detail fields
(per-keypoint worst matches, formatted `avgError`) are not modelled. -/
structure SimResult where
  score : ℝ
  err : Option SimError

/-- `calculatePoseSimilarity` from poseComparison.js.  Arguments are `Option`s
because JS callers may pass `null`/`undefined` keypoint arrays; `keypointWeights`
defaults (via JS `||`) to `defaultWeights` when absent. -/
noncomputable def calculatePoseSimilarity
    (livePoseKeypoints referencePoseKeypoints : Option (List Keypoint))
    (keypointWeights : Option (List ℝ)) : SimResult :=
  match livePoseKeypoints, referencePoseKeypoints with
  | some liveKps, some refKps =>
    match normalizeKeypoints liveKps, normalizeKeypoints refKps with
    | some normalizedLive, some normalizedRef =>
      let weights := keypointWeights.getD defaultWeights
      let acc := simLoop weights normalizedLive normalizedRef 0
      if acc.2.2 = 0 then ⟨0, some SimError.noValidKeypoints⟩
      else
        let avgError := acc.1 / acc.2.1
        ⟨round1 (max 0 (min 100 (100 - avgError * 100))), none⟩
    | _, _ => ⟨0, some SimError.cannotNormalize⟩
  | _, _ => ⟨0, some SimError.missingPoseData⟩

/-- JS `Math.atan2 y x`, the angle of the point `(x, y)` in `(-π, π]`,
modelled as the argument of the complex number `x + y·i`. -/
noncomputable def atan2 (y x : ℝ) : ℝ :=
  Complex.arg ⟨x, y⟩

/-- `calculateAngle` from poseComparison.js: the three-point joint angle at
`point2`, in degrees, folded into `[0, 180]`. -/
noncomputable def calculateAngle (point1 point2 point3 : Keypoint) : ℝ :=
  let radians := atan2 (point3.y - point2.y) (point3.x - point2.x) -
    atan2 (point1.y - point2.y) (point1.x - point2.x)
  let angle := |radians * 180 / Real.pi|
  if angle > 180 then 360 - angle else angle

/-- The named joint angles produced by `calculateJointAngles`; each field is
present exactly when its three keypoints all have confidence above `0.3`.
Field order is the JS object's insertion order, which fixes the `for...in`
iteration order in `compareJointAngles`. -/
structure JointAngles where
  leftElbow : Option ℝ
  rightElbow : Option ℝ
  leftKnee : Option ℝ
  rightKnee : Option ℝ
  leftShoulder : Option ℝ
  rightShoulder : Option ℝ
  leftHip : Option ℝ
  rightHip : Option ℝ

/-- Read keypoint `i` of a frame.  `calculateJointAngles` only reads indices
below 33 after checking `keypoints.length ≥ 33`, so the default is never
consulted there. -/
def kpAt (keypoints : List Keypoint) (i : ℕ) : Keypoint :=
  keypoints.getD i ⟨0, 0, 0⟩

/-- One guarded three-point angle of `calculateJointAngles`: present when the
three keypoints' confidences are all strictly above `0.3`. -/
noncomputable def jointAngle (keypoints : List Keypoint) (a b c : ℕ) : Option ℝ :=
  if (kpAt keypoints a).score > 3/10 ∧ (kpAt keypoints b).score > 3/10 ∧
      (kpAt keypoints c).score > 3/10 then
    some (calculateAngle (kpAt keypoints a) (kpAt keypoints b) (kpAt keypoints c))
  else none

/-- `calculateJointAngles` from poseComparison.js: `none` when fewer than 33
keypoints, otherwise the eight guarded joint angles. -/
noncomputable def calculateJointAngles (keypoints : List Keypoint) :
    Option JointAngles :=
  if keypoints.length < 33 then none
  else some
    { leftElbow := jointAngle keypoints 11 13 15
      rightElbow := jointAngle keypoints 12 14 16
      leftKnee := jointAngle keypoints 23 25 27
      rightKnee := jointAngle keypoints 24 26 28
      leftShoulder := jointAngle keypoints 13 11 23
      rightShoulder := jointAngle keypoints 14 12 24
      leftHip := jointAngle keypoints 11 23 25
      rightHip := jointAngle keypoints 12 24 26 }

/-- The `for (const joint in referenceAngles)` loop body of
`compareJointAngles`: for each joint present in the reference object (in
insertion order) whose counterpart is defined in the live object, the plain
absolute difference `Math.abs(live - ref)`. -/
noncomputable def jointDiffList (liveAngles referenceAngles : JointAngles) :
    List ℝ :=
  [(referenceAngles.leftElbow, liveAngles.leftElbow),
   (referenceAngles.rightElbow, liveAngles.rightElbow),
   (referenceAngles.leftKnee, liveAngles.leftKnee),
   (referenceAngles.rightKnee, liveAngles.rightKnee),
   (referenceAngles.leftShoulder, liveAngles.leftShoulder),
   (referenceAngles.rightShoulder, liveAngles.rightShoulder),
   (referenceAngles.leftHip, liveAngles.leftHip),
   (referenceAngles.rightHip, liveAngles.rightHip)].filterMap
    fun p => match p.1, p.2 with
      | some refAngle, some liveAngle => some |liveAngle - refAngle|
      | _, _ => none

/-- Result of `compareJointAngles`: the 0–100 angle score, the rounded
`details.averageAngleDifference` (absent when no joint was compared), and the
per-joint differences in iteration order. -/
structure AngleCompareResult where
  score : ℝ
  averageAngleDifference : Option ℝ
  jointDifferences : List ℝ

/-- `compareJointAngles` from poseComparison.js. -/
noncomputable def compareJointAngles (liveAngles referenceAngles : Option JointAngles) :
    AngleCompareResult :=
  match liveAngles, referenceAngles with
  | some la, some ra =>
    let diffs := jointDiffList la ra
    if diffs.length = 0 then ⟨0, none, []⟩
    else
      let avgDiff := diffs.sum / (diffs.length : ℝ)
      ⟨round1 (max 0 (100 - avgDiff / (18/10))), some (round1 avgDiff), diffs⟩
  | _, _ => ⟨0, none, []⟩

/-- `calculateLineAngle` from useMediaPipePose.js (the skeleton-coloring
comparator): the segment's direction angle in degrees. -/
noncomputable def calculateLineAngle (point1 point2 : Keypoint) : ℝ :=
  atan2 (point2.y - point1.y) (point2.x - point1.x) * 180 / Real.pi

/-- `angleDifference` from useMediaPipePose.js: the smallest circular
difference between two angles, with wraparound past 180°. -/
noncomputable def angleDifference (angle1 angle2 : ℝ) : ℝ :=
  let diff := |angle1 - angle2|
  if diff > 180 then 360 - diff else diff

/-- Options object of `usePoseComparison` (absent fields are JS `undefined`). -/
structure ComparisonOptions where
  keypointWeights : Option (List ℝ)
  poseSimilarityWeight : Option ℝ
  angleWeight : Option ℝ

/-- The hook's empty options object `{}`. -/
def noOptions : ComparisonOptions := ⟨none, none, none⟩

/-- JS `v || d` on an optional number: the default is used when the field is
absent or `0` (both falsy). -/
noncomputable def jsOr (v : Option ℝ) (d : ℝ) : ℝ :=
  match v with
  | none => d
  | some x => if x = 0 then d else x

/-- The `statistics` state of `usePoseComparison`. -/
structure Statistics where
  avgScore : ℝ
  maxScore : ℝ
  minScore : ℝ
  frameCount : ℕ
  scoreHistory : List ℝ

/-- The hook's initial (and reset) statistics. -/
def initialStatistics : Statistics :=
  { avgScore := 0, maxScore := 0, minScore := 100, frameCount := 0,
    scoreHistory := [] }

/-- The statistics update of `usePoseComparison`: increment the frame counter,
push the combined score, `shift()` the oldest entry once the history exceeds
the limit, and recompute average/max/min. -/
noncomputable def updateStatistics (stats : Statistics) (historyLimit : ℕ)
    (combinedScore : ℝ) : Statistics :=
  let pushed := stats.scoreHistory ++ [combinedScore]
  let history := if pushed.length > historyLimit then pushed.drop 1 else pushed
  { avgScore := history.sum / (history.length : ℝ)
    maxScore := max stats.maxScore combinedScore
    minScore := min stats.minScore combinedScore
    frameCount := stats.frameCount + 1
    scoreHistory := history }

/-- The unrounded combined score of `usePoseComparison`:
`similarity.score * (options.poseSimilarityWeight || 0.6) +
 angleComp.score * (options.angleWeight || 0.4)`. -/
noncomputable def combinedScoreCalc (liveKeypoints refKeypoints : List Keypoint)
    (options : ComparisonOptions) : ℝ :=
  let similarity := calculatePoseSimilarity (some liveKeypoints)
    (some refKeypoints) options.keypointWeights
  let angleComp := compareJointAngles (calculateJointAngles liveKeypoints)
    (calculateJointAngles refKeypoints)
  similarity.score * jsOr options.poseSimilarityWeight (6/10) +
    angleComp.score * jsOr options.angleWeight (4/10)

/-- A pose object as consumed by `usePoseComparison` (its `keypoints` field
may be absent). -/
structure Pose where
  keypoints : Option (List Keypoint)

/-- The `comparisonResult` state set by `usePoseComparison`: the keypoint
similarity result plus the combined score rounded to one decimal. -/
structure ComparisonResult where
  score : ℝ
  err : Option SimError
  combinedScore : ℝ

/-- One effect run of `usePoseComparison`: `none` when either pose or either
keypoint array is missing (the effect returns without updating statistics),
otherwise the new `comparisonResult` and the updated statistics. -/
noncomputable def comparisonTick (livePose referencePose : Option Pose)
    (options : ComparisonOptions) (stats : Statistics) (historyLimit : ℕ) :
    Option (ComparisonResult × Statistics) :=
  match livePose, referencePose with
  | some lp, some rp =>
    match lp.keypoints, rp.keypoints with
    | some liveKeypoints, some refKeypoints =>
      let similarity := calculatePoseSimilarity (some liveKeypoints)
        (some refKeypoints) options.keypointWeights
      let combinedScore := combinedScoreCalc liveKeypoints refKeypoints options
      some (⟨similarity.score, similarity.err, round1 combinedScore⟩,
        updateStatistics stats historyLimit combinedScore)
    | _, _ => none
  | _, _ => none

/-- A raw landmark of one reference frame as fetched from the backend
(`lm.z` and `lm.visibility` may be absent). -/
structure RefLandmark where
  x : ℚ
  y : ℚ
  z : Option ℚ
  visibility : Option ℚ
deriving DecidableEq

/-- One entry of the fetched landmark track: frame index, timestamp in
seconds, and the landmark array (absent for frames without detections). -/
structure LandmarkFrame where
  frame : ℕ
  time : ℚ
  landmarks : Option (List RefLandmark)
deriving DecidableEq

/-- One iteration of the closest-frame scan of `syncPose`: keep the new frame
only when its time difference is strictly smaller than the best so far
(`minTimeDiff` starts at `Infinity`, so the first frame always becomes the
initial candidate — modelled by the `none` accumulator). -/
def closestStep (currentTime : ℚ) (closest : Option LandmarkFrame)
    (frameData : LandmarkFrame) : Option LandmarkFrame :=
  match closest with
  | none => some frameData
  | some best =>
    if |frameData.time - currentTime| < |best.time - currentTime| then
      some frameData
    else some best

/-- The closest-frame search of `syncPose` in useReferencePoseLandmarks.js:
a linear scan over the fetched track. -/
def findClosestFrame (allLandmarks : List LandmarkFrame) (currentTime : ℚ) :
    Option LandmarkFrame :=
  allLandmarks.foldl (closestStep currentTime) none

/-- A landmark converted to MediaPipe format by `syncPose`
(`z: lm.z || 0`, `visibility: lm.visibility || 1`). -/
structure PoseLandmark where
  x : ℚ
  y : ℚ
  z : ℚ
  visibility : ℚ
deriving DecidableEq

/-- The `currentPose` published by the synchronizer. -/
structure CurrentPose where
  poseLandmarks : List PoseLandmark
  frame : ℕ
  time : ℚ
deriving DecidableEq

/-- The per-landmark conversion of `syncPose`; JS `||` sends an absent *or
zero* field to the default. -/
def toPoseLandmark (lm : RefLandmark) : PoseLandmark :=
  { x := lm.x, y := lm.y
    z := match lm.z with
      | none => 0
      | some z => if z = 0 then 0 else z
    visibility := match lm.visibility with
      | none => 1
      | some v => if v = 0 then 1 else v }

/-- One tick of `syncPose`: find the closest frame to the playback time and
publish it when it exists and carries a landmark array; otherwise the
previously published pose is left unchanged. -/
def syncPoseTick (allLandmarks : List LandmarkFrame) (currentTime : ℚ)
    (currentPose : Option CurrentPose) : Option CurrentPose :=
  match findClosestFrame allLandmarks currentTime with
  | some closestFrame =>
    match closestFrame.landmarks with
    | some lms =>
      some ⟨lms.map toPoseLandmark, closestFrame.frame, closestFrame.time⟩
    | none => currentPose
  | none => currentPose

/-- JS `Math.round` on rationals (the PIP geometry is modelled in `ℚ`). -/
def jsRoundQ (x : ℚ) : ℚ :=
  ((⌊x + 1/2⌋ : ℤ) : ℚ)

/-- The inputs of one `onMouseMove` of the PIP resize handler
(src/unnamed/part_020): pointer deltas, the drag-start size, the window
dimensions, and the locked aspect ratio `aspectRatioRef.current`. -/
structure PipResizeInput where
  dx : ℚ
  dy : ℚ
  startW : ℚ
  startH : ℚ
  winWidth : ℚ
  winHeight : ℚ
  currentAspect : ℚ
deriving DecidableEq

/-- `Math.min(window.innerWidth, 960)`. -/
def pipMaxW (input : PipResizeInput) : ℚ := min input.winWidth 960

/-- `Math.min(window.innerHeight, 720)`. -/
def pipMaxH (input : PipResizeInput) : ℚ := min input.winHeight 720

/-- `Math.max(160, Math.round(minH * currentAspect))` with `minH = 120`. -/
def pipMinW (input : PipResizeInput) : ℚ :=
  max 160 (jsRoundQ (120 * input.currentAspect))

/-- `currentAspect || (startW / startH)` (JS `||`: falsy `0` falls back). -/
def pipAspect (input : PipResizeInput) : ℚ :=
  if input.currentAspect = 0 then input.startW / input.startH
  else input.currentAspect

/-- The unclamped desired width: `startW * (1 - max(dx/startW, dy/startH))`. -/
def pipDesiredW (input : PipResizeInput) : ℚ :=
  input.startW * (1 - max (input.dx / input.startW) (input.dy / input.startH))

/-- The `onMouseMove` body of the PIP resize handler: proportional scale from
the dominant normalized delta, clamp the width to `[minW, maxW]`, derive the
height, then clamp the height to `[120, maxH]` recomputing the width from the
aspect ratio.  Returns the `(width, height)` passed to `setPipSize`. -/
def pipResize (input : PipResizeInput) : ℚ × ℚ :=
  let maxW := pipMaxW input
  let maxH := pipMaxH input
  let minW := pipMinW input
  let aspect := pipAspect input
  let desiredW := pipDesiredW input
  let clampedW := max minW (min desiredW maxW)
  let desiredH := jsRoundQ (clampedW / aspect)
  if desiredH < 120 then (jsRoundQ (120 * aspect), 120)
  else if desiredH > maxH then (jsRoundQ (maxH * aspect), maxH)
  else (clampedW, desiredH)

/-- Hip keypoints missing or below the confidence threshold, the "cannot
normalize" precondition of claim C2. -/
def hipsMissingOrLow (keypoints : List Keypoint) : Prop :=
  keypoints[23]? = none ∨ keypoints[24]? = none ∨
    (∃ lh, keypoints[23]? = some lh ∧ lh.score < 3/10) ∨
    (∃ rh, keypoints[24]? = some rh ∧ rh.score < 3/10)

/-- Both hip keypoints present with confidence at least `0.3`. -/
def hipsConfident (keypoints : List Keypoint) : Prop :=
  ∃ lh rh, keypoints[23]? = some lh ∧ keypoints[24]? = some rh ∧
    3/10 ≤ lh.score ∧ 3/10 ≤ rh.score

/-- Both hip keypoints present and at the same planar position. -/
def hipsCoincide (keypoints : List Keypoint) : Prop :=
  ∃ lh rh, keypoints[23]? = some lh ∧ keypoints[24]? = some rh ∧
    lh.x = rh.x ∧ lh.y = rh.y

/-- The spec's example track: frames at t = 0, 1, 2, 3 seconds. -/
def sampleTrack : List LandmarkFrame :=
  [⟨0, 0, some []⟩, ⟨1, 1, some []⟩, ⟨2, 2, some []⟩, ⟨3, 3, some []⟩]

/-- A live joint-angle object holding a single joint at 350°. -/
noncomputable def liveAnglesCex : JointAngles :=
  ⟨some 350, none, none, none, none, none, none, none⟩

/-- A reference joint-angle object holding the same joint at 10°. -/
noncomputable def refAnglesCex : JointAngles :=
  ⟨some 10, none, none, none, none, none, none, none⟩

/-- A keypoint with zero confidence (skipped by every comparison). -/
def kpLow : Keypoint := ⟨0, 0, 0⟩

/-- A 25-keypoint frame whose hips sit exactly at the 0.3 confidence
threshold, one unit apart; every other keypoint has zero confidence. -/
noncomputable def thresholdFrame : List Keypoint :=
  List.replicate 23 kpLow ++ [⟨0, 0, 3/10⟩, ⟨1, 0, 3/10⟩]

/-- A 25-keypoint frame with fully confident hips one unit apart. -/
noncomputable def solidFrame : List Keypoint :=
  List.replicate 23 kpLow ++ [⟨0, 0, 1⟩, ⟨1, 0, 1⟩]

/-- A second fully confident frame, hips two units apart. -/
noncomputable def solidFrameTwo : List Keypoint :=
  List.replicate 23 kpLow ++ [⟨0, 0, 1⟩, ⟨2, 0, 1⟩]

/-- A frame whose two confident hip keypoints coincide. -/
noncomputable def coincidingHipsFrame : List Keypoint :=
  List.replicate 23 kpLow ++ [⟨0, 0, 1⟩, ⟨0, 0, 1⟩]

/-- PIP resize counterexample input: a 1000×1000 window, locked aspect ratio
10, and a motionless pointer from a 300×200 start size. -/
def pipCexInput : PipResizeInput := ⟨0, 0, 300, 200, 1000, 1000, 10⟩

/-- PIP resize witness input: a 1000×300 window, aspect ratio 3/2, and a drag
that shrinks the desired width below the minimum width. -/
def pipWitnessInput : PipResizeInput := ⟨270, 0, 300, 200, 1000, 300, 3/2⟩

/-! ### Helper lemmas -/

/-- Missing or low-confidence hips make normalization fail. -/
theorem normalizeKeypoints_eq_none {k : List Keypoint} (h : hipsMissingOrLow k) :
    normalizeKeypoints k = none := by
  rcases h with h | h | ⟨lh, hlh, hs⟩ | ⟨rh, hrh, hs⟩
  · simp [normalizeKeypoints, h]
  · cases h23 : k[23]? <;> simp [normalizeKeypoints, h, h23]
  · cases h24 : k[24]? <;> simp [normalizeKeypoints, hlh, h24, hs]
  · cases h23 : k[23]? <;> simp [normalizeKeypoints, hrh, h23, hs]

/-- Unfolding lemma: `compareJointAngles` on two present angle objects. -/
theorem compareJointAngles_some (la ra : JointAngles) :
    compareJointAngles (some la) (some ra) =
      (if (jointDiffList la ra).length = 0 then ⟨0, none, []⟩
       else
         ⟨round1 (max 0 (100 - (jointDiffList la ra).sum /
            ((jointDiffList la ra).length : ℝ) / (18/10))),
          some (round1 ((jointDiffList la ra).sum /
            ((jointDiffList la ra).length : ℝ))),
          jointDiffList la ra⟩) := rfl

/-- Unfolding lemma: `calculatePoseSimilarity` on two present frames. -/
theorem calculatePoseSimilarity_some (l r : List Keypoint) (w : Option (List ℝ)) :
    calculatePoseSimilarity (some l) (some r) w =
      (match normalizeKeypoints l, normalizeKeypoints r with
       | some nl, some nr =>
         if (simLoop (w.getD defaultWeights) nl nr 0).2.2 = 0 then
           ⟨0, some SimError.noValidKeypoints⟩
         else
           ⟨round1 (max 0 (min 100 (100 -
              (simLoop (w.getD defaultWeights) nl nr 0).1 /
                (simLoop (w.getD defaultWeights) nl nr 0).2.1 * 100))), none⟩
       | _, _ => ⟨0, some SimError.cannotNormalize⟩) := rfl

/-- `angleDifference` applies the circular wraparound at 350° versus 10°. -/
theorem angleDifference_wraparound : angleDifference 350 10 = 20 := by
  have h : |(350 : ℝ) - 10| = 340 := by
    rw [show (350 : ℝ) - 10 = 340 by norm_num]
    exact abs_of_nonneg (by norm_num)
  unfold angleDifference
  rw [h, if_pos (by norm_num)]
  norm_num

/-- The scan step on an empty accumulator keeps the new frame. -/
theorem closestStep_none (t : ℚ) (f : LandmarkFrame) :
    closestStep t none f = some f := rfl

/-- The scan step with the comparison restated on squares (for evaluation:
`ℚ` absolute values do not reduce well, squares do). -/
theorem closestStep_some (t : ℚ) (best f : LandmarkFrame) :
    closestStep t (some best) f =
      if (f.time - t) ^ 2 < (best.time - t) ^ 2 then some f else some best := by
  unfold closestStep
  exact if_congr sq_lt_sq.symm rfl rfl

/-- The closest-frame scan started from a concrete candidate returns a
first-encountered minimizer among the candidate and the remaining frames. -/
theorem closestStep_foldl (t : ℚ) (l : List LandmarkFrame) :
    ∀ b : LandmarkFrame,
      ∃ r, l.foldl (closestStep t) (some b) = some r ∧ (r = b ∨ r ∈ l) ∧
        |r.time - t| ≤ |b.time - t| ∧ ∀ g ∈ l, |r.time - t| ≤ |g.time - t| := by
  induction l with
  | nil => exact fun b => ⟨b, rfl, Or.inl rfl, le_rfl, by simp⟩
  | cons f rest ih =>
    intro b
    rw [List.foldl_cons]
    by_cases hc : |f.time - t| < |b.time - t|
    · have hstep : closestStep t (some b) f = some f := by
        simp [closestStep, hc]
      rw [hstep]
      obtain ⟨r, hr, hmem, hle, hall⟩ := ih f
      refine ⟨r, hr, ?_, hle.trans hc.le, ?_⟩
      · rcases hmem with h | h
        · exact Or.inr (by simp [h])
        · exact Or.inr (List.mem_cons_of_mem _ h)
      · intro g hg
        rcases List.mem_cons.mp hg with h | h
        · exact h ▸ hle
        · exact hall g h
    · have hstep : closestStep t (some b) f = some b := by
        simp [closestStep, hc]
      rw [hstep]
      obtain ⟨r, hr, hmem, hle, hall⟩ := ih b
      refine ⟨r, hr, ?_, hle, ?_⟩
      · rcases hmem with h | h
        · exact Or.inl h
        · exact Or.inr (List.mem_cons_of_mem _ h)
      · intro g hg
        rcases List.mem_cons.mp hg with h | h
        · exact h ▸ (hle.trans (not_lt.mp hc))
        · exact hall g h

/-- Euclidean distance is symmetric in its two keypoints. -/
theorem calculateDistance_comm (p q : Keypoint) :
    calculateDistance p q = calculateDistance q p := by
  unfold calculateDistance
  congr 1
  ring

/-- A keypoint is at distance zero from itself. -/
theorem calculateDistance_self (p : Keypoint) : calculateDistance p p = 0 := by
  unfold calculateDistance
  simp

/-- The comparison loop is symmetric in the two frames up to the shared
weight/count accumulators. -/
theorem simLoop_comm (w : List ℝ) :
    ∀ (a b : List Keypoint) (i : ℕ), simLoop w a b i = simLoop w b a i := by
  intro a
  induction a with
  | nil => intro b i; cases b <;> rfl
  | cons x xs ih =>
    intro b i
    cases b with
    | nil => rfl
    | cons y ys =>
      simp only [simLoop]
      rw [ih ys (i + 1), calculateDistance_comm x y]
      exact if_congr and_comm rfl rfl

/-- `calculatePoseSimilarity` is symmetric in its two frames. -/
theorem calculatePoseSimilarity_comm (a b : List Keypoint) (w : Option (List ℝ)) :
    calculatePoseSimilarity (some a) (some b) w =
      calculatePoseSimilarity (some b) (some a) w := by
  rw [calculatePoseSimilarity_some, calculatePoseSimilarity_some]
  cases ha : normalizeKeypoints a <;> cases hb : normalizeKeypoints b
  · rfl
  · rfl
  · rfl
  · rename_i nl nr
    exact congrArg
      (fun acc : ℝ × ℝ × ℕ =>
        if acc.2.2 = 0 then (⟨0, some SimError.noValidKeypoints⟩ : SimResult)
        else ⟨round1 (max 0 (min 100 (100 - acc.1 / acc.2.1 * 100))), none⟩)
      (simLoop_comm (w.getD defaultWeights) nl nr 0)

/-- Coinciding hip keypoints make the hip distance zero, so normalization
fails before any division happens. -/
theorem normalizeKeypoints_eq_none_of_coincide {k : List Keypoint}
    (h : hipsCoincide k) : normalizeKeypoints k = none := by
  obtain ⟨lh, rh, h23, h24, hx, hy⟩ := h
  have hd : calculateDistance lh rh = 0 := by
    unfold calculateDistance
    rw [hx, hy]
    simp
  simp [normalizeKeypoints, h23, h24, hd]

/-- Successful normalization: present hips, confidences not below 0.3, and a
nonzero hip distance yield the frame scaled by the hip distance. -/
theorem normalizeKeypoints_eq_some {k : List Keypoint} {lh rh : Keypoint}
    (h23 : k[23]? = some lh) (h24 : k[24]? = some rh)
    (hl : ¬ lh.score < 3/10) (hr : ¬ rh.score < 3/10)
    (hd : calculateDistance lh rh ≠ 0) :
    normalizeKeypoints k = some (k.map fun kp =>
      { kp with x := kp.x / calculateDistance lh rh,
                y := kp.y / calculateDistance lh rh }) := by
  simp [normalizeKeypoints, h23, h24, hl, hr, hd]

/-- When every live keypoint sits at or below the 0.3 confidence threshold the
comparison loop accumulates nothing (the condition is strict). -/
theorem simLoop_all_low (w : List ℝ) :
    ∀ (a b : List Keypoint) (i : ℕ), (∀ kp ∈ a, kp.score ≤ 3/10) →
      simLoop w a b i = (0, 0, 0) := by
  intro a
  induction a with
  | nil => intro b i _; cases b <;> rfl
  | cons x xs ih =>
    intro b i h
    cases b with
    | nil => rfl
    | cons y ys =>
      simp only [simLoop]
      rw [ih ys (i + 1) fun kp hk => h kp (List.mem_cons_of_mem _ hk)]
      rw [if_neg]
      intro hc
      exact absurd hc.1 (not_lt.mpr (h x (List.mem_cons_self _ _)))

/-- Comparing a frame with itself accumulates zero total error: every compared
pair is a keypoint against itself, at distance zero. -/
theorem simLoop_self_err (w : List ℝ) :
    ∀ (l : List Keypoint) (i : ℕ), (simLoop w l l i).1 = 0 := by
  intro l
  induction l with
  | nil => intro i; rfl
  | cons x xs ih =>
    intro i
    simp only [simLoop]
    by_cases hc : x.score > 3/10 ∧ x.score > 3/10
    · rw [if_pos hc]
      simp [ih, calculateDistance_self]
    · rw [if_neg hc]
      exact ih (i + 1)

/-- Self-comparison counts at least one valid keypoint as soon as some index
holds a keypoint with confidence strictly above 0.3. -/
theorem simLoop_self_count_ne_zero (w : List ℝ) :
    ∀ (l : List Keypoint) (j i : ℕ) (kp : Keypoint),
      l[j]? = some kp → kp.score > 3/10 → (simLoop w l l i).2.2 ≠ 0 := by
  intro l
  induction l with
  | nil => intro j i kp h; simp at h
  | cons x xs ih =>
    intro j i kp h hs
    cases j with
    | zero =>
      have hx : x = kp := by simpa using h
      subst hx
      simp only [simLoop]
      rw [if_pos ⟨hs, hs⟩]
      exact Nat.succ_ne_zero _
    | succ n =>
      have h' : xs[n]? = some kp := by simpa using h
      have hrec := ih n (i + 1) kp h' hs
      simp only [simLoop]
      by_cases hc : x.score > 3/10 ∧ x.score > 3/10
      · rw [if_pos hc]
        exact Nat.succ_ne_zero _
      · rw [if_neg hc]
        exact hrec

/-! ### Claim theorems -/

/-- C1 counterexample: a frame whose hips sit exactly at the 0.3 confidence
threshold (valid for normalization, which requires `score ≥ 0.3`) with hip
distance 1 self-compares to score 0, not 100: the per-keypoint loop demands
confidence strictly above 0.3, so no keypoint is counted and the comparator
reports "no valid keypoints". -/
theorem selfSimilarity_at_threshold :
    thresholdFrame[23]? = some ⟨0, 0, 3/10⟩ ∧
    thresholdFrame[24]? = some ⟨1, 0, 3/10⟩ ∧
    calculateDistance ⟨0, 0, 3/10⟩ ⟨1, 0, 3/10⟩ ≠ 0 ∧
    (calculatePoseSimilarity (some thresholdFrame) (some thresholdFrame) none).score ≠ 100 := by
  have hd : calculateDistance ⟨0, 0, 3/10⟩ ⟨1, 0, 3/10⟩ = 1 := by
    unfold calculateDistance
    rw [show ((0:ℝ) - 1) * ((0:ℝ) - 1) + ((0:ℝ) - 0) * ((0:ℝ) - 0) = 1 by norm_num]
    exact Real.sqrt_one
  have hnd : calculateDistance ⟨0, 0, 3/10⟩ ⟨1, 0, 3/10⟩ ≠ 0 := by
    rw [hd]
    exact one_ne_zero
  refine ⟨rfl, rfl, hnd, ?_⟩
  have hnorm := @normalizeKeypoints_eq_some thresholdFrame ⟨0, 0, 3/10⟩ ⟨1, 0, 3/10⟩
    rfl rfl (by norm_num) (by norm_num) hnd
  have hlow : ∀ kp ∈ thresholdFrame.map (fun kp =>
      ({ kp with x := kp.x / calculateDistance ⟨0, 0, 3/10⟩ ⟨1, 0, 3/10⟩,
                 y := kp.y / calculateDistance ⟨0, 0, 3/10⟩ ⟨1, 0, 3/10⟩ } : Keypoint)),
      kp.score ≤ 3/10 := by
    intro kp hkp
    rw [List.mem_map] at hkp
    obtain ⟨a, ha, rfl⟩ := hkp
    show a.score ≤ 3/10
    simp [thresholdFrame, List.mem_replicate, kpLow] at ha
    rcases ha with rfl | rfl | rfl <;> norm_num
  set nf := thresholdFrame.map (fun kp =>
      ({ kp with x := kp.x / calculateDistance ⟨0, 0, 3/10⟩ ⟨1, 0, 3/10⟩,
                 y := kp.y / calculateDistance ⟨0, 0, 3/10⟩ ⟨1, 0, 3/10⟩ } : Keypoint))
    with hnf
  have hloop := simLoop_all_low defaultWeights nf nf 0 hlow
  simp only [calculatePoseSimilarity_some, hnorm, Option.getD_none, hloop]
  norm_num

/-- C1 (amended): for every frame of the 33-point layout whose hip keypoints
have confidence strictly above 0.3 and nonzero hip separation, comparing the
frame with itself yields a score of exactly 100.  (At confidence exactly 0.3
the hips pass normalization but are excluded from the strict per-keypoint
comparison, see the counterexample.) -/
theorem selfSimilarity_perfect (kps : List Keypoint) (lh rh : Keypoint)
    (hlen : kps.length ≤ 33)
    (h23 : kps[23]? = some lh) (h24 : kps[24]? = some rh)
    (hls : lh.score > 3/10) (hrs : rh.score > 3/10)
    (hsep : calculateDistance lh rh ≠ 0) :
    (calculatePoseSimilarity (some kps) (some kps) none).score = 100 := by
  have hnorm := normalizeKeypoints_eq_some h23 h24 (asymm hls) (asymm hrs) hsep
  set d := calculateDistance lh rh with hd
  set n := kps.map (fun kp => { kp with x := kp.x / d, y := kp.y / d })
    with hn
  have hget : n[23]? = some { lh with x := lh.x / d, y := lh.y / d } := by
    rw [hn, List.getElem?_map, h23]
    rfl
  have hcount : (simLoop defaultWeights n n 0).2.2 ≠ 0 :=
    simLoop_self_count_ne_zero defaultWeights n 23 0 _ hget hls
  have herr : (simLoop defaultWeights n n 0).1 = 0 := simLoop_self_err defaultWeights n 0
  simp only [calculatePoseSimilarity_some, hnorm, Option.getD_none]
  rw [if_neg hcount]
  rw [herr, zero_div]
  rw [show (100:ℝ) - 0 * 100 = 100 by ring, min_self,
    max_eq_right (by norm_num : (0:ℝ) ≤ 100)]
  show round1 100 = 100
  unfold round1 jsRound
  norm_num

/-- Witness for the amended C1 on a concrete confident frame. -/
theorem selfSimilarity_perfect_witness :
    solidFrame.length ≤ 33 ∧
    solidFrame[23]? = some ⟨0, 0, 1⟩ ∧ solidFrame[24]? = some ⟨1, 0, 1⟩ ∧
    (Keypoint.mk 0 0 1).score > 3/10 ∧ (Keypoint.mk 1 0 1).score > 3/10 ∧
    calculateDistance ⟨0, 0, 1⟩ ⟨1, 0, 1⟩ ≠ 0 ∧
    (calculatePoseSimilarity (some solidFrame) (some solidFrame) none).score = 100 := by
  have hd : calculateDistance ⟨0, 0, 1⟩ ⟨1, 0, 1⟩ = 1 := by
    unfold calculateDistance
    rw [show ((0:ℝ) - 1) * ((0:ℝ) - 1) + ((0:ℝ) - 0) * ((0:ℝ) - 0) = 1 by norm_num]
    exact Real.sqrt_one
  have hnd : calculateDistance ⟨0, 0, 1⟩ ⟨1, 0, 1⟩ ≠ 0 := by
    rw [hd]
    exact one_ne_zero
  exact ⟨by norm_num [solidFrame], rfl, rfl, by norm_num, by norm_num, hnd,
    selfSimilarity_perfect solidFrame ⟨0, 0, 1⟩ ⟨1, 0, 1⟩
      (by norm_num [solidFrame]) rfl rfl (by norm_num) (by norm_num) hnd⟩

/-- `Math.round` never exceeds its argument by more than one half. -/
theorem jsRoundQ_le (x : ℚ) : jsRoundQ x ≤ x + 1/2 := Int.floor_le _

/-- `Math.round` never falls short of its argument by one half or more. -/
theorem lt_jsRoundQ (x : ℚ) : x - 1/2 < jsRoundQ x := by
  have h := Int.lt_floor_add_one (x + 1/2)
  unfold jsRoundQ
  push_cast
  linarith

/-- `Math.round` of a non-negative number is non-negative. -/
theorem jsRoundQ_nonneg {x : ℚ} (h : 0 ≤ x) : 0 ≤ jsRoundQ x := by
  unfold jsRoundQ
  exact_mod_cast Int.le_floor.mpr (by push_cast; linarith)

/-- Unfolding lemma for the PIP resize handler. -/
theorem pipResize_eq (input : PipResizeInput) :
    pipResize input =
      (if jsRoundQ (max (pipMinW input) (min (pipDesiredW input) (pipMaxW input))
            / pipAspect input) < 120
       then (jsRoundQ (120 * pipAspect input), 120)
       else if jsRoundQ (max (pipMinW input) (min (pipDesiredW input) (pipMaxW input))
            / pipAspect input) > pipMaxH input
       then (jsRoundQ (pipMaxH input * pipAspect input), pipMaxH input)
       else (max (pipMinW input) (min (pipDesiredW input) (pipMaxW input)),
             jsRoundQ (max (pipMinW input) (min (pipDesiredW input) (pipMaxW input))
               / pipAspect input))) := rfl

/-- C8 counterexample: with a 1000×1000 window and locked aspect ratio 10,
the aspect-derived minimum width max(160, round(120·10)) = 1200 exceeds the
viewport-derived maximum min(1000, 960) = 960, and the handler emits width
1200 — the claimed viewport bound is violated. -/
theorem pipResize_exceeds_viewport :
    pipResize pipCexInput = (1200, 120) ∧
    pipMaxW pipCexInput = 960 ∧ pipMaxH pipCexInput = 720 ∧
    ¬ (pipResize pipCexInput).1 ≤ pipMaxW pipCexInput := by
  have ha : pipAspect pipCexInput = 10 := by
    show (if (10 : ℚ) = 0 then (300 : ℚ) / 200 else 10) = 10
    norm_num
  have hminw : pipMinW pipCexInput = 1200 := by
    show max 160 (jsRoundQ (120 * 10)) = 1200
    rw [show jsRoundQ ((120 : ℚ) * 10) = 1200 by norm_num [jsRoundQ]]
    exact max_eq_right (by norm_num)
  have hmaxw : pipMaxW pipCexInput = 960 := by
    show min (1000 : ℚ) 960 = 960
    exact min_eq_right (by norm_num)
  have hmaxh : pipMaxH pipCexInput = 720 := by
    show min (1000 : ℚ) 720 = 720
    exact min_eq_right (by norm_num)
  have hdes : pipDesiredW pipCexInput = 300 := by
    show (300 : ℚ) * (1 - max (0 / 300) (0 / 200)) = 300
    norm_num
  have hclamp : max (pipMinW pipCexInput)
      (min (pipDesiredW pipCexInput) (pipMaxW pipCexInput)) = 1200 := by
    rw [hminw, hdes, hmaxw, min_eq_left (by norm_num : (300 : ℚ) ≤ 960)]
    exact max_eq_left (by norm_num)
  have hH : jsRoundQ (1200 / pipAspect pipCexInput) = 120 := by
    rw [ha]
    norm_num [jsRoundQ]
  have hres : pipResize pipCexInput = (1200, 120) := by
    rw [pipResize_eq, hclamp, hH, ha, hmaxh]
    rw [if_neg (by norm_num), if_neg (by norm_num)]
  refine ⟨hres, hmaxw, hmaxh, ?_⟩
  rw [hres, hmaxw]
  norm_num

/-- C8 (amended): for every drag-resize with a positive locked aspect ratio,
positive start size, and non-negative window height: the resulting width and
height are non-negative (finite by construction in `ℚ`); when the
aspect-derived minimum width is the binding one, the aspect exceeds 1 and the
window allows a 120 px height, a drag whose desired width falls below the
minimum clamps the height to exactly 120 px with the width recomputed as
round(120·aspect); and provided the viewport accommodates both the
aspect-derived minimum width and the width derived from the maximal height,
the result never exceeds min(window width, 960) by min(window height, 720) —
without that proviso the bound fails (see the counterexample). -/
theorem pipResize_clamped (input : PipResizeInput)
    (haspect : 0 < input.currentAspect)
    (hsw : 0 < input.startW) (hsh : 0 < input.startH)
    (hwh : 0 ≤ input.winHeight) :
    (0 ≤ (pipResize input).1 ∧ 0 ≤ (pipResize input).2) ∧
    (160 ≤ jsRoundQ (120 * input.currentAspect) → 1 < input.currentAspect →
      120 ≤ pipMaxH input → pipDesiredW input < pipMinW input →
      pipResize input = (jsRoundQ (120 * input.currentAspect), 120)) ∧
    (pipMinW input ≤ pipMaxW input →
      jsRoundQ (pipMaxH input * input.currentAspect) ≤ pipMaxW input →
      120 ≤ pipMaxH input →
      (pipResize input).1 ≤ pipMaxW input ∧ (pipResize input).2 ≤ pipMaxH input) := by
  have haz : input.currentAspect ≠ 0 := ne_of_gt haspect
  have haeq : pipAspect input = input.currentAspect := by
    unfold pipAspect
    rw [if_neg haz]
  have hmaxh0 : 0 ≤ pipMaxH input := le_min hwh (by norm_num)
  have hres := pipResize_eq input
  rw [haeq] at hres
  set W1 := max (pipMinW input) (min (pipDesiredW input) (pipMaxW input)) with hW1
  set H1 := jsRoundQ (W1 / input.currentAspect) with hH1
  refine ⟨?_, ?_, ?_⟩
  · rw [hres]
    by_cases h1 : H1 < 120
    · rw [if_pos h1]
      exact ⟨jsRoundQ_nonneg (mul_nonneg (by norm_num) haspect.le), by norm_num⟩
    · rw [if_neg h1]
      by_cases h2 : H1 > pipMaxH input
      · rw [if_pos h2]
        exact ⟨jsRoundQ_nonneg (mul_nonneg hmaxh0 haspect.le), hmaxh0⟩
      · rw [if_neg h2]
        constructor
        · rw [hW1]
          have h160 : (160 : ℚ) ≤ pipMinW input := le_max_left _ _
          have hup : pipMinW input ≤
              max (pipMinW input) (min (pipDesiredW input) (pipMaxW input)) :=
            le_max_left _ _
          linarith
        · have := not_lt.mp h1
          linarith
  · intro hminw160 h1a h120 hdlt
    have hW1eq : W1 = pipMinW input := by
      rw [hW1]
      exact max_eq_left ((min_le_left _ _).trans hdlt.le)
    have hminWeq : pipMinW input = jsRoundQ (120 * input.currentAspect) := by
      unfold pipMinW
      exact max_eq_right hminw160
    have hub : pipMinW input ≤ 120 * input.currentAspect + 1/2 := by
      rw [hminWeq]
      exact jsRoundQ_le _
    have hlb : 120 * input.currentAspect - 1/2 < pipMinW input := by
      rw [hminWeq]
      exact lt_jsRoundQ _
    have hH1eq : H1 = 120 := by
      rw [hH1, hW1eq]
      unfold jsRoundQ
      have hfloor : ⌊pipMinW input / input.currentAspect + 1/2⌋ = (120 : ℤ) := by
        rw [Int.floor_eq_iff]
        constructor
        · push_cast
          have hgt : (1195/10 : ℚ) * input.currentAspect < pipMinW input := by
            linarith
          have hdiv := (lt_div_iff haspect).mpr hgt
          linarith
        · push_cast
          have hlt : pipMinW input < (1205/10 : ℚ) * input.currentAspect := by
            linarith
          have hdiv := (div_lt_iff haspect).mpr hlt
          linarith
      rw [hfloor]
      norm_num
    rw [hres, hH1eq, hW1eq, hminWeq]
    rw [if_neg (by norm_num), if_neg (not_lt.mpr h120)]
  · intro hmw hrm h120
    rw [hres]
    by_cases h1 : H1 < 120
    · rw [if_pos h1]
      constructor
      · have hle : jsRoundQ (120 * input.currentAspect) ≤ pipMinW input := by
          unfold pipMinW
          exact le_max_right _ _
        exact hle.trans hmw
      · exact h120
    · rw [if_neg h1]
      by_cases h2 : H1 > pipMaxH input
      · rw [if_pos h2]
        exact ⟨hrm, le_refl _⟩
      · rw [if_neg h2]
        constructor
        · rw [hW1]
          exact max_le hmw (min_le_right _ _)
        · exact not_lt.mp h2

/-- Witness for the amended C8 at a concrete drag below the minimum width. -/
theorem pipResize_clamped_witness :
    0 < pipWitnessInput.currentAspect ∧ 0 < pipWitnessInput.startW ∧
    0 < pipWitnessInput.startH ∧ 0 ≤ pipWitnessInput.winHeight ∧
    160 ≤ jsRoundQ (120 * pipWitnessInput.currentAspect) ∧
    1 < pipWitnessInput.currentAspect ∧ 120 ≤ pipMaxH pipWitnessInput ∧
    pipDesiredW pipWitnessInput < pipMinW pipWitnessInput ∧
    pipMinW pipWitnessInput ≤ pipMaxW pipWitnessInput ∧
    jsRoundQ (pipMaxH pipWitnessInput * pipWitnessInput.currentAspect) ≤
      pipMaxW pipWitnessInput ∧
    pipResize pipWitnessInput = (jsRoundQ (120 * pipWitnessInput.currentAspect), 120) ∧
    (pipResize pipWitnessInput).1 ≤ pipMaxW pipWitnessInput ∧
    (pipResize pipWitnessInput).2 ≤ pipMaxH pipWitnessInput := by
  have hA : 0 < pipWitnessInput.currentAspect := by norm_num [pipWitnessInput]
  have hW : 0 < pipWitnessInput.startW := by norm_num [pipWitnessInput]
  have hH : 0 < pipWitnessInput.startH := by norm_num [pipWitnessInput]
  have hWh : 0 ≤ pipWitnessInput.winHeight := by norm_num [pipWitnessInput]
  have hj180 : jsRoundQ ((120 : ℚ) * (3/2)) = 180 := by norm_num [jsRoundQ]
  have h160 : 160 ≤ jsRoundQ (120 * pipWitnessInput.currentAspect) := by
    show (160 : ℚ) ≤ jsRoundQ (120 * (3/2))
    rw [hj180]
    norm_num
  have h1a : 1 < pipWitnessInput.currentAspect := by norm_num [pipWitnessInput]
  have hmaxh : pipMaxH pipWitnessInput = 300 := by
    show min (300 : ℚ) 720 = 300
    exact min_eq_left (by norm_num)
  have h120 : 120 ≤ pipMaxH pipWitnessInput := by
    rw [hmaxh]
    norm_num
  have hminw : pipMinW pipWitnessInput = 180 := by
    show max 160 (jsRoundQ (120 * (3/2))) = 180
    rw [hj180]
    exact max_eq_right (by norm_num)
  have hdes : pipDesiredW pipWitnessInput = 30 := by
    show (300 : ℚ) * (1 - max (270/300) (0/200)) = 30
    rw [show (270 : ℚ)/300 = 9/10 by norm_num, show (0 : ℚ)/200 = 0 by norm_num,
      max_eq_left (by norm_num : (0 : ℚ) ≤ 9/10)]
    norm_num
  have hdlt : pipDesiredW pipWitnessInput < pipMinW pipWitnessInput := by
    rw [hdes, hminw]
    norm_num
  have hmaxw : pipMaxW pipWitnessInput = 960 := by
    show min (1000 : ℚ) 960 = 960
    exact min_eq_right (by norm_num)
  have hmw : pipMinW pipWitnessInput ≤ pipMaxW pipWitnessInput := by
    rw [hminw, hmaxw]
    norm_num
  have hrm : jsRoundQ (pipMaxH pipWitnessInput * pipWitnessInput.currentAspect) ≤
      pipMaxW pipWitnessInput := by
    rw [hmaxw, hmaxh]
    show jsRoundQ ((300 : ℚ) * (3/2)) ≤ 960
    norm_num [jsRoundQ]
  have main := pipResize_clamped pipWitnessInput hA hW hH hWh
  exact ⟨hA, hW, hH, hWh, h160, h1a, h120, hdlt, hmw, hrm,
    main.2.1 h160 h1a h120 hdlt, (main.2.2 hmw hrm h120).1,
    (main.2.2 hmw hrm h120).2⟩

/-- C2: whenever either frame's hip keypoints (indices 23 and 24) are missing
or have confidence below 0.3, `calculatePoseSimilarity` returns score 0 with
the explicit cannot-normalize error.  The function is total over `ℝ`-valued
frames (every match arm yields a `SimResult`), which is the model of "never
NaN and never an exception". -/
theorem similarity_cannotNormalize (liveKps refKps : List Keypoint)
    (w : Option (List ℝ))
    (h : hipsMissingOrLow liveKps ∨ hipsMissingOrLow refKps) :
    calculatePoseSimilarity (some liveKps) (some refKps) w =
      ⟨0, some SimError.cannotNormalize⟩ := by
  rcases h with h | h
  · cases hr : normalizeKeypoints refKps <;>
      simp [calculatePoseSimilarity, normalizeKeypoints_eq_none h, hr]
  · cases hl : normalizeKeypoints liveKps <;>
      simp [calculatePoseSimilarity, normalizeKeypoints_eq_none h, hl]

/-- Witness for C2 at a concrete input: two empty frames (hips missing). -/
theorem similarity_cannotNormalize_witness :
    (hipsMissingOrLow ([] : List Keypoint) ∨ hipsMissingOrLow ([] : List Keypoint)) ∧
    calculatePoseSimilarity (some []) (some []) none =
      ⟨0, some SimError.cannotNormalize⟩ :=
  ⟨Or.inl (Or.inl rfl),
    similarity_cannotNormalize [] [] none (Or.inl (Or.inl rfl))⟩

/-- C4 counterexample: the numeric joint-angle comparator
(`compareJointAngles`) does not apply the circular wraparound — two joint
objects holding 350° and 10° produce an average difference of 340°, while the
skeleton-coloring primitive `angleDifference` yields 20° on the same pair, so
the two scoring schemes do not share the shortest-circular-difference
behaviour. -/
theorem jointAngles_no_wraparound :
    (compareJointAngles (some liveAnglesCex) (some refAnglesCex)).averageAngleDifference
      = some 340 ∧
    angleDifference 350 10 = 20 ∧ (340 : ℝ) ≠ 20 := by
  refine ⟨?_, angleDifference_wraparound, by norm_num⟩
  have h : |(350 : ℝ) - 10| = 340 := by
    rw [show (350 : ℝ) - 10 = 340 by norm_num]
    exact abs_of_nonneg (by norm_num)
  have hd : jointDiffList liveAnglesCex refAnglesCex = [(340 : ℝ)] := by
    simp [jointDiffList, liveAnglesCex, refAnglesCex, h]
  rw [compareJointAngles_some, hd, if_neg (by simp)]
  have havg : (List.sum [(340 : ℝ)]) / ((List.length [(340 : ℝ)] : ℕ) : ℝ) = 340 := by
    norm_num
  rw [havg]
  have hr : round1 340 = 340 := by
    unfold round1 jsRound
    norm_num
  rw [hr]

/-- C4 (amended): the skeleton-coloring primitive `angleDifference` is
symmetric and handles circular wraparound (350° vs 10° gives 20°); the
numeric comparator `compareJointAngles` instead uses the plain absolute
difference of the two joint angles, which agrees with the circular
difference only for angles in [0°, 180°], the range `calculateAngle`
produces. -/
theorem angleDifference_symm_wraparound :
    (∀ x y : ℝ, angleDifference x y = angleDifference y x) ∧
    angleDifference 350 10 = 20 ∧
    (∀ liveValue refValue : ℝ,
      (compareJointAngles
        (some ⟨some liveValue, none, none, none, none, none, none, none⟩)
        (some ⟨some refValue, none, none, none, none, none, none, none⟩)).jointDifferences
        = [|liveValue - refValue|]) ∧
    (∀ x y : ℝ, 0 ≤ x → x ≤ 180 → 0 ≤ y → y ≤ 180 →
      |x - y| = angleDifference x y) := by
  refine ⟨?_, angleDifference_wraparound, ?_, ?_⟩
  · intro x y
    unfold angleDifference
    rw [abs_sub_comm]
  · intro lv rv
    have hd : jointDiffList ⟨some lv, none, none, none, none, none, none, none⟩
        ⟨some rv, none, none, none, none, none, none, none⟩ = [|lv - rv|] := by
      simp [jointDiffList]
    rw [compareJointAngles_some, hd, if_neg (by simp)]
  · intro x y hx hx' hy hy'
    unfold angleDifference
    rw [if_neg]
    rw [not_lt]
    rw [abs_sub_le_iff]
    constructor <;> linarith

/-- Witness for the amended C4, applying the plain-absolute-difference
agreement on the in-range angles 90° and 30°. -/
theorem angleDifference_symm_wraparound_witness :
    (0 : ℝ) ≤ 90 ∧ (90 : ℝ) ≤ 180 ∧ (0 : ℝ) ≤ 30 ∧ (30 : ℝ) ≤ 180 ∧
    |(90 : ℝ) - 30| = angleDifference 90 30 :=
  ⟨by norm_num, by norm_num, by norm_num, by norm_num,
    angleDifference_symm_wraparound.2.2.2 90 30 (by norm_num) (by norm_num)
      (by norm_num) (by norm_num)⟩

/-- C5: for every non-empty track the synchronizer's scan returns a member
frame whose timestamp difference is minimal (nearest-neighbour, no
interpolation); on the spec's track t = [0,1,2,3] the query 1.6 returns the
frame at t = 2, and the exact tie at 1.5 deterministically returns the
first-encountered of the two equidistant frames (t = 1). -/
theorem findClosestFrame_nearest :
    (∀ (track : List LandmarkFrame) (t : ℚ), track ≠ [] →
      ∃ f, findClosestFrame track t = some f ∧ f ∈ track ∧
        ∀ g ∈ track, |f.time - t| ≤ |g.time - t|) ∧
    findClosestFrame sampleTrack (16/10) = some ⟨2, 2, some []⟩ ∧
    findClosestFrame sampleTrack (15/10) = some ⟨1, 1, some []⟩ := by
  refine ⟨?_,
    by norm_num [findClosestFrame, sampleTrack, List.foldl_cons,
      List.foldl_nil, closestStep_none, closestStep_some],
    by norm_num [findClosestFrame, sampleTrack, List.foldl_cons,
      List.foldl_nil, closestStep_none, closestStep_some]⟩
  intro track t hne
  match track with
  | f :: rest =>
    unfold findClosestFrame
    rw [List.foldl_cons]
    have hstep : closestStep t none f = some f := rfl
    rw [hstep]
    obtain ⟨r, hr, hmem, hle, hall⟩ := closestStep_foldl t rest f
    refine ⟨r, hr, ?_, ?_⟩
    · rcases hmem with h | h
      · exact h ▸ List.mem_cons_self f rest
      · exact List.mem_cons_of_mem _ h
    · intro g hg
      rcases List.mem_cons.mp hg with h | h
      · exact h ▸ hle
      · exact hall g h

/-- Witness for C5 on the non-empty sample track at query time 0. -/
theorem findClosestFrame_nearest_witness :
    sampleTrack ≠ [] ∧
    ∃ f, findClosestFrame sampleTrack 0 = some f ∧ f ∈ sampleTrack ∧
      ∀ g ∈ sampleTrack, |f.time - 0| ≤ |g.time - 0| :=
  ⟨by simp [sampleTrack],
    findClosestFrame_nearest.1 sampleTrack 0 (by simp [sampleTrack])⟩

/-- C6: with window capacity 3, feeding 10, 20, 30, 40 leaves the retained
history [20, 30, 40] with average exactly 30; in general one append keeps the
history within the capacity (FIFO eviction of the single oldest entry) and
the average is recomputed over exactly the retained window. -/
theorem statistics_window :
    ((updateStatistics (updateStatistics (updateStatistics
        (updateStatistics initialStatistics 3 10) 3 20) 3 30) 3 40).scoreHistory
      = [20, 30, 40] ∧
     (updateStatistics (updateStatistics (updateStatistics
        (updateStatistics initialStatistics 3 10) 3 20) 3 30) 3 40).avgScore
      = 30) ∧
    (∀ (stats : Statistics) (limit : ℕ) (s : ℝ),
      stats.scoreHistory.length ≤ limit →
      (updateStatistics stats limit s).scoreHistory =
        (stats.scoreHistory ++ [s]).drop (stats.scoreHistory.length + 1 - limit) ∧
      (updateStatistics stats limit s).scoreHistory.length ≤ limit ∧
      (updateStatistics stats limit s).avgScore =
        (updateStatistics stats limit s).scoreHistory.sum /
          ((updateStatistics stats limit s).scoreHistory.length : ℝ)) := by
  constructor
  · constructor
    · simp [updateStatistics, initialStatistics]
    · simp [updateStatistics, initialStatistics]
      norm_num
  · intro stats limit s hlen
    have key : (updateStatistics stats limit s).scoreHistory =
        if (stats.scoreHistory ++ [s]).length > limit then
          (stats.scoreHistory ++ [s]).drop 1
        else stats.scoreHistory ++ [s] := rfl
    refine ⟨?_, ?_, rfl⟩
    · rw [key]
      by_cases hc : (stats.scoreHistory ++ [s]).length > limit
      · rw [if_pos hc]
        have h1 : stats.scoreHistory.length + 1 - limit = 1 := by
          simp at hc
          omega
        rw [h1]
      · rw [if_neg hc]
        have h0 : stats.scoreHistory.length + 1 - limit = 0 := by
          simp at hc
          omega
        rw [h0, List.drop_zero]
    · rw [key]
      by_cases hc : (stats.scoreHistory ++ [s]).length > limit
      · rw [if_pos hc]
        simp at hc ⊢
        omega
      · rw [if_neg hc]
        simp at hc ⊢
        omega

/-- Witness for the general windowing part of C6 at a concrete input. -/
theorem statistics_window_witness :
    initialStatistics.scoreHistory.length ≤ 3 ∧
    (updateStatistics initialStatistics 3 10).scoreHistory =
      (initialStatistics.scoreHistory ++ [10]).drop
        (initialStatistics.scoreHistory.length + 1 - 3) ∧
    (updateStatistics initialStatistics 3 10).scoreHistory.length ≤ 3 ∧
    (updateStatistics initialStatistics 3 10).avgScore =
      (updateStatistics initialStatistics 3 10).scoreHistory.sum /
        (((updateStatistics initialStatistics 3 10).scoreHistory.length : ℕ) : ℝ) :=
  ⟨by simp [initialStatistics],
    statistics_window.2 initialStatistics 3 10 (by simp [initialStatistics])⟩

/-- C10: once the synchronizer has published a pose it never clears it — a
tick with an absent closest frame or a closest frame without landmarks leaves
the previous pose unchanged, and a tick starting from a published pose always
ends with a published pose. -/
theorem syncPose_never_cleared (track : List LandmarkFrame) (t : ℚ)
    (prev : Option CurrentPose) :
    (∀ p, prev = some p → (syncPoseTick track t prev).isSome = true) ∧
    (findClosestFrame track t = none → syncPoseTick track t prev = prev) ∧
    (∀ cf, findClosestFrame track t = some cf → cf.landmarks = none →
      syncPoseTick track t prev = prev) := by
  refine ⟨?_, ?_, ?_⟩
  · intro p hp
    subst hp
    unfold syncPoseTick
    cases h : findClosestFrame track t with
    | none => rfl
    | some cf => cases hl : cf.landmarks <;> simp [hl]
  · intro h
    unfold syncPoseTick
    rw [h]
  · intro cf h hl
    unfold syncPoseTick
    rw [h]
    simp [hl]

/-- C3: the keypoint similarity score is symmetric whenever both frames'
hip keypoints have confidence at least 0.3 (the proof factors through the
unconditional symmetry of the comparator). -/
theorem similarity_symmetric (a b : List Keypoint) (w : Option (List ℝ))
    (ha : hipsConfident a) (hb : hipsConfident b) :
    (calculatePoseSimilarity (some a) (some b) w).score =
      (calculatePoseSimilarity (some b) (some a) w).score := by
  rw [calculatePoseSimilarity_comm]

/-- Witness for C3 on two concrete confident frames. -/
theorem similarity_symmetric_witness :
    hipsConfident solidFrame ∧ hipsConfident solidFrameTwo ∧
    (calculatePoseSimilarity (some solidFrame) (some solidFrameTwo) none).score =
      (calculatePoseSimilarity (some solidFrameTwo) (some solidFrame) none).score :=
  ⟨⟨⟨0, 0, 1⟩, ⟨1, 0, 1⟩, rfl, rfl, by norm_num, by norm_num⟩,
   ⟨⟨0, 0, 1⟩, ⟨2, 0, 1⟩, rfl, rfl, by norm_num, by norm_num⟩,
   similarity_symmetric solidFrame solidFrameTwo none
     ⟨⟨0, 0, 1⟩, ⟨1, 0, 1⟩, rfl, rfl, by norm_num, by norm_num⟩
     ⟨⟨0, 0, 1⟩, ⟨2, 0, 1⟩, rfl, rfl, by norm_num, by norm_num⟩⟩

/-- C9: confident but coinciding hip keypoints (hip distance exactly zero) in
either frame make `calculatePoseSimilarity` return score 0 with the
cannot-normalize error instead of dividing by zero. -/
theorem similarity_zeroHipDistance (a b : List Keypoint) (w : Option (List ℝ))
    (hca : hipsConfident a) (hcb : hipsConfident b)
    (h : hipsCoincide a ∨ hipsCoincide b) :
    calculatePoseSimilarity (some a) (some b) w =
      ⟨0, some SimError.cannotNormalize⟩ := by
  rcases h with h | h
  · cases hr : normalizeKeypoints b <;>
      simp [calculatePoseSimilarity, normalizeKeypoints_eq_none_of_coincide h, hr]
  · cases hl : normalizeKeypoints a <;>
      simp [calculatePoseSimilarity, normalizeKeypoints_eq_none_of_coincide h, hl]

/-- Witness for C9: a frame with coinciding confident hips against a normal
confident frame. -/
theorem similarity_zeroHipDistance_witness :
    hipsConfident coincidingHipsFrame ∧ hipsConfident solidFrame ∧
    hipsCoincide coincidingHipsFrame ∧
    calculatePoseSimilarity (some coincidingHipsFrame) (some solidFrame) none =
      ⟨0, some SimError.cannotNormalize⟩ :=
  ⟨⟨⟨0, 0, 1⟩, ⟨0, 0, 1⟩, rfl, rfl, by norm_num, by norm_num⟩,
   ⟨⟨0, 0, 1⟩, ⟨1, 0, 1⟩, rfl, rfl, by norm_num, by norm_num⟩,
   ⟨⟨0, 0, 1⟩, ⟨0, 0, 1⟩, rfl, rfl, rfl, rfl⟩,
   similarity_zeroHipDistance coincidingHipsFrame solidFrame none
     ⟨⟨0, 0, 1⟩, ⟨0, 0, 1⟩, rfl, rfl, by norm_num, by norm_num⟩
     ⟨⟨0, 0, 1⟩, ⟨1, 0, 1⟩, rfl, rfl, by norm_num, by norm_num⟩
     (Or.inl ⟨⟨0, 0, 1⟩, ⟨0, 0, 1⟩, rfl, rfl, rfl, rfl⟩)⟩

/-- C7: with the hook's default options, the combined score published in
`comparisonResult` is exactly 0.6 times the keypoint-similarity score plus
0.4 times the joint-angle score, rounded to one decimal place. -/
theorem combinedScore_blend (liveKeypoints refKeypoints : List Keypoint)
    (stats : Statistics) (historyLimit : ℕ) :
    (comparisonTick (some ⟨some liveKeypoints⟩) (some ⟨some refKeypoints⟩)
        noOptions stats historyLimit).map (fun r => r.1.combinedScore) =
      some (round1 (6/10 *
          (calculatePoseSimilarity (some liveKeypoints) (some refKeypoints) none).score +
        4/10 * (compareJointAngles (calculateJointAngles liveKeypoints)
          (calculateJointAngles refKeypoints)).score)) := by
  have hjs6 : jsOr none (6/10) = 6/10 := rfl
  have hjs4 : jsOr none (4/10) = 4/10 := rfl
  simp only [comparisonTick, combinedScoreCalc, noOptions, hjs6, hjs4,
    Option.map_some']
  congr 1
  ring_nf

/-- Witness for C10: the empty track leaves a previously published pose in
place. -/
theorem syncPose_never_cleared_witness :
    (syncPoseTick [] 0 (some ⟨[], 0, 0⟩)).isSome = true ∧
    findClosestFrame [] 0 = none ∧
    syncPoseTick [] 0 (some ⟨[], 0, 0⟩) = some ⟨[], 0, 0⟩ :=
  ⟨(syncPose_never_cleared [] 0 (some ⟨[], 0, 0⟩)).1 ⟨[], 0, 0⟩ rfl, rfl,
    (syncPose_never_cleared [] 0 (some ⟨[], 0, 0⟩)).2.1 rfl⟩

end Cory
